import Mathlib

/-!
Verification of the Jina Reader MCP adapter (src/index.ts).

The development shallowly embeds the two pieces of the adapter that carry
logic: the response formatter with its pagination policy, and the
TTL-based result cache inside the upstream-call helper, together with the
three thin tool handlers.  JavaScript strings are modelled as Lean
strings (one `Char` per character), JavaScript numbers appearing in the
pagination arithmetic as `Int`/`Nat`, and the mutable module-level cache
as an explicit association list threaded through the call.  The network
fetch performed by the upstream client is an external effect; it enters
the model as an explicit `FetchOutcome` argument describing what the
single POST call would produce.
-/

/-- Decimal digit character for a value below ten; models how JavaScript
renders the digits of a number (used by template literals and by
`JSON.stringify`). -/
def digitChar (n : Nat) : Char :=
  match n with
  | 0 => '0' | 1 => '1' | 2 => '2' | 3 => '3' | 4 => '4'
  | 5 => '5' | 6 => '6' | 7 => '7' | 8 => '8' | _ => '9'

/-- Fuel-driven accumulator loop producing the decimal digits of a
natural number, most significant first.  Structural recursion on the
fuel keeps the definition kernel-reducible. -/
def natCharsCore : Nat → Nat → List Char → List Char
  | 0, _, acc => acc
  | fuel + 1, n, acc =>
    if n < 10 then digitChar n :: acc
    else natCharsCore fuel (n / 10) (digitChar (n % 10) :: acc)

/-- Decimal digit list of a natural number (fuel `n + 1` always
suffices, one digit per division by ten). -/
def natChars (n : Nat) : List Char := natCharsCore (n + 1) n []

/-- Decimal rendering of a natural number, as JavaScript string
conversion produces it for non-negative integers. -/
def jsNat (n : Nat) : String := String.mk (natChars n)

/-- Decimal rendering of an integer, as JavaScript string conversion
produces it for integers (a leading minus sign for negative values). -/
def jsInt : Int → String
  | Int.ofNat n => jsNat n
  | Int.negSucc n => "-" ++ jsNat (n + 1)

/-- Well-founded restatement of `natChars`, convenient for induction in
the proofs below; it is shown equal to `natChars`. -/
def natCharsWF (n : Nat) : List Char :=
  if n < 10 then [digitChar n]
  else natCharsWF (n / 10) ++ [digitChar (n % 10)]
decreasing_by exact Nat.div_lt_self (by omega) (by omega)

/-- Left fold reading a decimal digit list back into a natural number;
used to establish that `natChars` is injective. -/
def charsToNat (l : List Char) : Nat :=
  l.foldl (fun a c => 10 * a + (c.toNat - 48)) 0

/-- Structural lookup of the character at a given index of a list,
reducible even when the tail of the list is symbolic. -/
def nthCh : List Char → Nat → Option Char
  | [], _ => none
  | c :: _, 0 => some c
  | _ :: t, n + 1 => nthCh t n

/-- Prefix test on character lists. -/
def isPrefixChars : List Char → List Char → Bool
  | [], _ => true
  | _ :: _, [] => false
  | a :: as, b :: bs => a == b && isPrefixChars as bs

/-- Substring-occurrence test on character lists: does `pat` occur
contiguously inside `hay`? -/
def containsChars (pat : List Char) : List Char → Bool
  | [] => isPrefixChars pat []
  | c :: t => isPrefixChars pat (c :: t) || containsChars pat t

/-- Truthiness of a JavaScript string value: the empty string is falsy,
every other string is truthy. -/
def truthyStr (s : String) : Bool := !(s == "")

/-- Truthiness of a possibly-absent JavaScript string field: an absent
(`undefined`) field and the empty string are both falsy. -/
def truthyOptStr : Option String → Bool
  | none => false
  | some s => !(s == "")

/-- Value of a possibly-absent string field, the empty string when
absent; absent and empty are indistinguishable to the formatter. -/
def orEmpty : Option String → String
  | none => ""
  | some s => s

/-- Token-count metadata of the upstream response (`data.usage`). -/
structure Usage where
  tokens : Nat
deriving DecidableEq

/-- Payload object of the upstream response (`result.data`): optional
title, description, content, link map, warning and usage fields. -/
structure JinaData where
  title : Option String
  description : Option String
  content : Option String
  links : Option (List (String × String))
  warning : Option String
  usage : Option Usage
deriving DecidableEq

/-- Markdown rendering of the link map: one markdown list item per
entry, in order (the `for..of Object.entries` loop of the source). -/
def renderLinks (links : List (String × String)) : String :=
  links.foldl (fun acc link => acc ++ "- [" ++ link.1 ++ "](" ++ link.2 ++ ")\n") ""

/-- Assembly of the markdown text from a present payload: title heading,
description, content, links section, warning and usage note, each
guarded exactly as in `formatJinaResponse` of the source. -/
def assembleData (data : JinaData) : String :=
  let o1 := if truthyOptStr data.title then "# " ++ orEmpty data.title ++ "\n\n" else ""
  let o2 := if truthyOptStr data.description && truthyStr (orEmpty data.description).trim then
    o1 ++ orEmpty data.description ++ "\n\n" else o1
  let o3 := if truthyOptStr data.content then o2 ++ orEmpty data.content ++ "\n\n" else o2
  let o4 := match data.links with
    | some links => if 0 < links.length then o3 ++ "## Links\n\n" ++ renderLinks links ++ "\n" else o3
    | none => o3
  let o5 := if truthyOptStr data.warning then o4 ++ "> Warning: " ++ orEmpty data.warning ++ "\n\n" else o4
  match data.usage with
  | some u => if u.tokens != 0 then o5 ++ "*Used " ++ jsNat u.tokens ++ " tokens*\n" else o5
  | none => o5

/-- Text assembled before pagination: the rendered payload when
`result.data` is present, the fixed no-content literal otherwise. -/
def assembledOutput : Option JinaData → String
  | some data => assembleData data
  | none => "No content extracted or unexpected response format."

/-- Effective window length of the pagination step: the source computes
`max_length || 20000`, so an absent or zero `max_length` falls back to
the default while any other value (negative ones included) is kept. -/
def effectiveMaxLength (max_length : Option Int) : Int :=
  match max_length with
  | none => 20000
  | some m => if m == 0 then 20000 else m

/-- Model of `output.substring(0, n)` in JavaScript: the first `n`
characters of the string (fewer if the string is shorter). -/
def substringTo (s : String) (n : Nat) : String := String.mk (s.data.take n)

/-- Pagination trailer of the truncation branch, reporting the claimed
window, the total length and the suggested next start index. -/
def clippedTrailer (startPos : Nat) (endPos : Int) (total : Nat) : String :=
  "\n\n---\n[PAGINATION INFO]\n- Content clipped: Currently showing characters " ++
  jsNat startPos ++ "-" ++ jsInt endPos ++ " of approximately " ++ jsNat total ++
  " total\n- To view the next section, use start_index=" ++ jsInt endPos ++
  " with the same max_length\n- Complete content can be accessed by making multiple paginated requests\n"

/-- Pagination trailer of the non-truncated branch used when the start
index is positive, presuming the end of the content was reached. -/
def endTrailer (startPos stop : Nat) : String :=
  "\n\n---\n[PAGINATION INFO]\n- Showing characters " ++ jsNat startPos ++ "-" ++ jsNat stop ++
  " of the document\n- This appears to be the end of the content\n"

/-- Response formatter (`formatJinaResponse` of the source): assembles
the markdown text and applies the pagination policy. -/
def formatJinaResponse (result : Option JinaData) (max_length : Option Int) (start_index : Nat) : String :=
  let output := assembledOutput result
  let eff := effectiveMaxLength max_length
  let startPosition := start_index
  if (output.length : Int) > eff then
    substringTo output eff.toNat ++
      clippedTrailer startPosition ((startPosition : Int) + eff) output.length
  else if startPosition > 0 then
    output ++ endTrailer startPosition (startPosition + output.length)
  else output

/-- Rendering-engine selector of the upstream API. -/
inductive Engine where
  | none
  | direct
  | browser
  | cfBrowserRendering
deriving DecidableEq

/-- Wire name of each engine, as accepted by the tool schema. -/
def engineStr : Engine → String
  | .none => "none"
  | .direct => "direct"
  | .browser => "browser"
  | .cfBrowserRendering => "cf-browser-rendering"

/-- First character of each engine name; the four names have pairwise
distinct first characters, which the key-injectivity proof exploits. -/
def engHead : Engine → Char
  | .none => 'n'
  | .direct => 'd'
  | .browser => 'b'
  | .cfBrowserRendering => 'c'

/-- Request-variant payload of the three tools: a URL, raw HTML, or a
base64-encoded PDF. -/
inductive ReqParams where
  | url (value : String)
  | html (value : String)
  | pdf (value : String)
deriving DecidableEq

/-- Hexadecimal digit character for a value below sixteen (lower case,
as `JSON.stringify` uses in control-character escapes). -/
def hexDigit (n : Nat) : Char :=
  match n with
  | 10 => 'a' | 11 => 'b' | 12 => 'c' | 13 => 'd' | 14 => 'e' | 15 => 'f'
  | _ => digitChar n

/-- Escape of one character inside a JSON string literal, following
`JSON.stringify`: quote, backslash, the named control escapes, a
`\u00..` escape for other control characters, and the character itself
otherwise. -/
def escChar (c : Char) : String :=
  if c == '"' then "\\\""
  else if c == '\\' then "\\\\"
  else if c == '\x08' then "\\b"
  else if c == '\x09' then "\\t"
  else if c == '\x0a' then "\\n"
  else if c == '\x0c' then "\\f"
  else if c == '\x0d' then "\\r"
  else if c.toNat < 32 then "\\u00" ++ String.mk [hexDigit (c.toNat / 16), hexDigit (c.toNat % 16)]
  else String.mk [c]

/-- JSON string literal for a string value, as `JSON.stringify`
produces it. -/
def jsonStr (s : String) : String :=
  "\"" ++ s.data.foldl (fun acc c => acc ++ escChar c) "" ++ "\""

/-- JSON serialization of the request-variant payload object (`params`
in the source), one single-field object per variant. -/
def encParams : ReqParams → String
  | .url v => "\x7b\"url\":" ++ jsonStr v ++ "\x7d"
  | .html v => "\x7b\"html\":" ++ jsonStr v ++ "\x7d"
  | .pdf v => "\x7b\"pdf\":" ++ jsonStr v ++ "\x7d"

/-- Serialized `max_length` member of the cache key; `JSON.stringify`
drops a property whose value is `undefined`, so an absent value
contributes nothing. -/
def mlPart : Option Nat → String
  | none => ""
  | some m => ",\"max_length\":" ++ jsNat m

/-- Serialized `start_index` member of the cache key; absent values are
dropped exactly as for `mlPart`. -/
def siPart : Option Nat → String
  | none => ""
  | some s => ",\"start_index\":" ++ jsNat s

/-- Cache key of a request:
`JSON.stringify({ params, engine, max_length, start_index })` with the
insertion order of the source object literal. -/
def cacheKey (params : ReqParams) (engine : Engine) (max_length start_index : Option Nat) : String :=
  "\x7b\"params\":" ++ encParams params ++ ",\"engine\":\"" ++ engineStr engine ++ "\"" ++
  mlPart max_length ++ siPart start_index ++ "\x7d"

/-- Cache entry: the parsed upstream payload together with the time at
which it was stored. -/
structure CacheEntry where
  data : Option JinaData
  timestamp : Nat
deriving DecidableEq

/-- The module-level cache object, modelled as an association list from
serialized keys to entries (at most one live entry per key). -/
abbrev Cache := List (String × CacheEntry)

/-- Lookup of a key in the cache (`cache[cacheKey]` in the source). -/
def cacheGet : Cache → String → Option CacheEntry
  | [], _ => none
  | (k, e) :: rest, key => if k == key then some e else cacheGet rest key

/-- Removal of a key from the cache (`delete cache[cacheKey]`). -/
def cacheErase (c : Cache) (key : String) : Cache :=
  c.filter (fun p => p.1 != key)

/-- Store of an entry under a key (`cache[cacheKey] = entry`),
overwriting any previous entry for that key. -/
def cachePut (c : Cache) (key : String) (e : CacheEntry) : Cache :=
  (key, e) :: cacheErase c key

/-- Cache time-to-live: three hours in milliseconds. -/
def CACHE_TTL : Nat := 3 * 60 * 60 * 1000

/-- Failure modes of the upstream client: missing credential, non-2xx
HTTP status, transport failure, malformed JSON. -/
inductive CallError where
  | authError (message : String)
  | httpError (status : Nat)
  | netError (message : String)
  | parseError (message : String)
deriving DecidableEq

/-- Message carried by each failure, as the corresponding JavaScript
`Error` object's `message` reads. -/
def errMessage : CallError → String
  | .authError m => m
  | .httpError s => "Jina API error: " ++ jsNat s
  | .netError m => m
  | .parseError m => m

/-- Outcome of the single outbound POST call, supplied to the model as
an oracle for the external network effect. -/
inductive FetchOutcome where
  | ok (result : Option JinaData)
  | httpError (status : Nat)
  | netError (message : String)
  | parseError (message : String)
deriving DecidableEq

/-- Upstream-call helper (`callJinaReaderAPI` of the source): credential
check, cache lookup with lazy expiry, then the fetch described by the
oracle, storing a successful result.  Returns the call result, the
updated cache, and whether the network call was performed. -/
def callJinaReaderAPI (apiKey : Option String) (params : ReqParams) (engine : Engine)
    (max_length start_index : Option Nat) (useCache : Bool) (c : Cache) (now : Nat)
    (upstream : FetchOutcome) : Except CallError (Option JinaData) × Cache × Bool :=
  if !truthyOptStr apiKey then
    (Except.error (CallError.authError ("JINA_API_KEY not configured. Please set it in your .env file.")), c, false)
  else
    let key := cacheKey params engine max_length start_index
    let checked : Option (Option JinaData) × Cache :=
      if useCache then
        match cacheGet c key with
        | some entry =>
          if now - entry.timestamp < CACHE_TTL then (some entry.data, c)
          else (none, cacheErase c key)
        | none => (none, c)
      else (none, c)
    match checked with
    | (some cached, c1) => (Except.ok cached, c1, false)
    | (none, c1) =>
      match upstream with
      | .ok result =>
        (Except.ok result, (if useCache then cachePut c1 key (CacheEntry.mk result now) else c1), true)
      | .httpError status => (Except.error (CallError.httpError status), c1, true)
      | .netError m => (Except.error (CallError.netError m), c1, true)
      | .parseError m => (Except.error (CallError.parseError m), c1, true)

/-- Protocol text-content envelope returned by a tool handler (the
`content: [{type: "text", text}]` structure, reduced to its text). -/
structure ToolResponse where
  text : String
deriving DecidableEq

/-- Shared handler glue of the three tools: invoke the upstream client,
then either format the result or wrap the caught failure message with
the `Error: ` prefix. -/
def handleJina (apiKey : Option String) (params : ReqParams) (engine : Engine)
    (max_length start_index : Option Nat) (c : Cache) (now : Nat) (upstream : FetchOutcome) :
    ToolResponse × Cache × Bool :=
  let res := callJinaReaderAPI apiKey params engine max_length start_index true c now upstream
  match res.1 with
  | Except.ok result =>
    (ToolResponse.mk (formatJinaResponse result (max_length.map fun n => (n : Int)) (start_index.getD 0)), res.2)
  | Except.error e => (ToolResponse.mk ("Error: " ++ errMessage e), res.2)

/-- Handler of the `jina_read_url` tool. -/
def jina_read_url (url : String) (apiKey : Option String) (engine : Engine)
    (max_length start_index : Option Nat) (c : Cache) (now : Nat) (upstream : FetchOutcome) :
    ToolResponse × Cache × Bool :=
  handleJina apiKey (ReqParams.url url) engine max_length start_index c now upstream

/-- Handler of the `jina_read_html` tool. -/
def jina_read_html (html : String) (apiKey : Option String) (engine : Engine)
    (max_length start_index : Option Nat) (c : Cache) (now : Nat) (upstream : FetchOutcome) :
    ToolResponse × Cache × Bool :=
  handleJina apiKey (ReqParams.html html) engine max_length start_index c now upstream

/-- Handler of the `jina_read_pdf` tool. -/
def jina_read_pdf (pdf : String) (apiKey : Option String) (engine : Engine)
    (max_length start_index : Option Nat) (c : Cache) (now : Nat) (upstream : FetchOutcome) :
    ToolResponse × Cache × Bool :=
  handleJina apiKey (ReqParams.pdf pdf) engine max_length start_index c now upstream

/-- Concrete content of 24998 characters, assembling (with the two
newlines the content branch appends) to a text of exactly 25000
characters; used to instantiate the truncation-boundary property. -/
def bigContent : String := String.mk (List.replicate 24998 'a')

/-- Concrete payload carrying only `bigContent`. -/
def bigData : JinaData :=
  JinaData.mk none none (some bigContent) none none none

/-- Concrete payload whose fields are all absent. -/
def emptyData : JinaData :=
  JinaData.mk none none none none none none

/-- Concrete small payload used by counterexamples. -/
def smallData : JinaData :=
  JinaData.mk none none (some ("hello")) none none none

/-- Unfolding of `String.data` over string append. -/
theorem string_data_append (s t : String) : (s ++ t).data = s.data ++ t.data := rfl

/-- Unfolding of `String.data` over `String.mk`. -/
theorem string_data_mk (l : List Char) : (String.mk l).data = l := rfl

/-- The data of the empty string literal. -/
theorem string_data_empty : ("" : String).data = [] := rfl

/-- The accumulator of `natCharsCore` is appended on the right. -/
theorem natCharsCore_acc (fuel : Nat) :
    ∀ n acc, natCharsCore fuel n acc = natCharsCore fuel n [] ++ acc := by
  induction fuel with
  | zero => intro n acc; simp [natCharsCore]
  | succ f ih =>
    intro n acc
    simp only [natCharsCore]
    split
    · rfl
    · rw [ih (n / 10) (digitChar (n % 10) :: acc), ih (n / 10) [digitChar (n % 10)]]
      simp

/-- With sufficient fuel, the fuel-driven digit loop agrees with its
well-founded restatement. -/
theorem natCharsCore_eq_wf : ∀ n fuel, n < fuel → natCharsCore fuel n [] = natCharsWF n := by
  intro n
  induction n using Nat.strong_induction_on with
  | _ n ih =>
    intro fuel hf
    match fuel, hf with
    | f + 1, hf =>
      rw [natCharsWF]
      simp only [natCharsCore]
      split
      · rfl
      · rename_i h
        rw [natCharsCore_acc]
        rw [ih (n / 10) (Nat.div_lt_self (by omega) (by omega)) f (by omega)]

/-- The executable digit list agrees with the well-founded restatement. -/
theorem natChars_eq_wf (n : Nat) : natChars n = natCharsWF n :=
  natCharsCore_eq_wf n (n + 1) (Nat.lt_succ_self n)

/-- Reading the decimal digits of `n` back yields `n`. -/
theorem charsToNat_natChars (n : Nat) : charsToNat (natChars n) = n := by
  rw [natChars_eq_wf]
  induction n using natCharsWF.induct with
  | case1 n h =>
    rw [natCharsWF, if_pos h]
    have hd : ∀ m, m < 10 → charsToNat [digitChar m] = m := by decide
    exact hd n h
  | case2 n h ih =>
    rw [natCharsWF, if_neg h]
    unfold charsToNat
    rw [List.foldl_append]
    have hv : ∀ m, m < 10 → (digitChar m).toNat - 48 = m := by decide
    simp only [List.foldl]
    have := hv (n % 10) (Nat.mod_lt _ (by omega))
    unfold charsToNat at ih
    omega

/-- Decimal digit lists determine the rendered number. -/
theorem natChars_inj {a b : Nat} (h : natChars a = natChars b) : a = b := by
  have := congrArg charsToNat h
  rwa [charsToNat_natChars, charsToNat_natChars] at this

/-- Every character emitted by the digit loop is a decimal digit. -/
theorem natChars_isDigit (n : Nat) : ∀ c ∈ natChars n, c.isDigit = true := by
  rw [natChars_eq_wf]
  induction n using natCharsWF.induct with
  | case1 n h =>
    rw [natCharsWF, if_pos h]
    intro c hc
    simp at hc
    subst hc
    rcases n with _|_|_|_|_|_|_|_|_|n <;> rfl
  | case2 n h ih =>
    rw [natCharsWF, if_neg h]
    intro c hc
    rw [List.mem_append] at hc
    rcases hc with hc | hc
    · exact ih c hc
    · simp at hc
      subst hc
      rcases h9 : n % 10 with _|_|_|_|_|_|_|_|_|m <;> rfl

/-- Two digit runs followed by non-digit remainders can only be equal
segment by segment (a token-boundary cancellation argument). -/
theorem digits_append_cancel : ∀ (xs1 : List Char) (xs2 r1 r2 : List Char),
    (∀ c ∈ xs1, c.isDigit = true) → (∀ c ∈ xs2, c.isDigit = true) →
    (∀ c, r1.head? = some c → c.isDigit = false) →
    (∀ c, r2.head? = some c → c.isDigit = false) →
    xs1 ++ r1 = xs2 ++ r2 → xs1 = xs2 ∧ r1 = r2 := by
  intro xs1
  induction xs1 with
  | nil =>
    intro xs2 r1 r2 _ h2 hr1 _ h
    cases xs2 with
    | nil => exact ⟨rfl, h⟩
    | cons b t2 =>
      simp at h
      have hb : r1.head? = some b := by rw [h]; rfl
      have := hr1 b hb
      have := h2 b (by simp)
      simp_all
  | cons a t1 ih =>
    intro xs2 r1 r2 h1 h2 hr1 hr2 h
    cases xs2 with
    | nil =>
      simp at h
      have ha : r2.head? = some a := by rw [← h]; rfl
      have := hr2 a ha
      have := h1 a (by simp)
      simp_all
    | cons b t2 =>
      simp at h
      obtain ⟨hab, ht⟩ := h
      have := ih t2 r1 r2 (fun c hc => h1 c (by simp [hc])) (fun c hc => h2 c (by simp [hc])) hr1 hr2 ht
      exact ⟨by rw [hab, this.1], this.2⟩

/-- Head character of an engine name followed by anything. -/
theorem engine_head_append (e : Engine) (s : List Char) :
    ((engineStr e).data ++ s).head? = some (engHead e) := by
  cases e <;> rfl

/-- The four engine names start with pairwise distinct characters, so an
engine name prefix determines the engine. -/
theorem engine_of_append {e1 e2 : Engine} {s1 s2 : List Char}
    (h : (engineStr e1).data ++ s1 = (engineStr e2).data ++ s2) : e1 = e2 := by
  have h1 := engine_head_append e1 s1
  rw [h, engine_head_append e2 s2] at h1
  injection h1 with h1
  cases e1 <;> cases e2 <;> first | rfl | exact absurd h1 (by decide)

/-- The data of `jsNat` is its digit list. -/
theorem jsNat_data (n : Nat) : (jsNat n).data = natChars n := rfl

/-- Head of the serialized `start_index` member followed by the closing
brace is never a digit. -/
theorem siPart_close_head (si : Option Nat) :
    ∀ c, ((siPart si).data ++ ("\x7d" : String).data).head? = some c → c.isDigit = false := by
  cases si with
  | none =>
    intro c hc
    have h0 : (((siPart none).data ++ ("\x7d" : String).data)).head? = some '\x7d' := rfl
    rw [h0] at hc
    injection hc with hc
    subst hc
    decide
  | some s =>
    intro c hc
    have h0 : (((siPart (some s)).data ++ ("\x7d" : String).data)).head? = some ',' := rfl
    rw [h0] at hc
    injection hc with hc
    subst hc
    decide

/-- Cancellation of the `start_index` member: equal serialized tails
force equal `start_index` values. -/
theorem si_stage {si1 si2 : Option Nat}
    (h : (siPart si1).data ++ ("\x7d" : String).data = (siPart si2).data ++ ("\x7d" : String).data) :
    si1 = si2 := by
  cases si1 with
  | none =>
    cases si2 with
    | none => rfl
    | some s2 =>
      exact absurd (show (some '\x7d' : Option Char) = some ','
        from congrArg (fun l => nthCh l 0) h) (by decide)
  | some s1 =>
    cases si2 with
    | none =>
      exact absurd (show (some ',' : Option Char) = some '\x7d'
        from congrArg (fun l => nthCh l 0) h) (by decide)
    | some s2 =>
      simp only [siPart, string_data_append, List.append_assoc] at h
      have h2 := List.append_cancel_left h
      have h3 := digits_append_cancel (natChars s1) (natChars s2)
        (("\x7d" : String).data) (("\x7d" : String).data)
        (natChars_isDigit s1) (natChars_isDigit s2)
        (by intro c hc; injection hc with hc; subst hc; decide)
        (by intro c hc; injection hc with hc; subst hc; decide) h2
      rw [natChars_inj h3.1]

/-- A key whose `max_length` member is absent cannot serialize like one
whose `max_length` member is present. -/
theorem ml_absent_present {m : Nat} {si1 si2 : Option Nat}
    (h : (siPart si1).data ++ ("\x7d" : String).data =
      (",\"max_length\":" : String).data ++
        ((jsNat m).data ++ ((siPart si2).data ++ ("\x7d" : String).data))) : False := by
  cases si1 with
  | none =>
    exact absurd (show (some '\x7d' : Option Char) = some ','
      from congrArg (fun l => nthCh l 0) h) (by decide)
  | some s1 =>
    exact absurd (show (some 's' : Option Char) = some 'm'
      from congrArg (fun l => nthCh l 2) h) (by decide)

/-- Cancellation of the `max_length` and `start_index` members of the
serialized key. -/
theorem mlsi_stage {ml1 ml2 si1 si2 : Option Nat}
    (h : (mlPart ml1).data ++ ((siPart si1).data ++ ("\x7d" : String).data) =
      (mlPart ml2).data ++ ((siPart si2).data ++ ("\x7d" : String).data)) :
    ml1 = ml2 ∧ si1 = si2 := by
  cases ml1 with
  | none =>
    cases ml2 with
    | none =>
      simp only [mlPart, string_data_empty, List.nil_append] at h
      exact ⟨rfl, si_stage h⟩
    | some m2 =>
      simp only [mlPart, string_data_empty, string_data_append, List.nil_append,
        List.append_assoc] at h
      exact absurd h (fun hh => ml_absent_present hh)
  | some m1 =>
    cases ml2 with
    | none =>
      simp only [mlPart, string_data_empty, string_data_append, List.nil_append,
        List.append_assoc] at h
      exact absurd h.symm (fun hh => ml_absent_present hh)
    | some m2 =>
      simp only [mlPart, string_data_append, List.append_assoc] at h
      have h2 := List.append_cancel_left h
      have h3 := digits_append_cancel (natChars m1) (natChars m2)
        ((siPart si1).data ++ ("\x7d" : String).data)
        ((siPart si2).data ++ ("\x7d" : String).data)
        (natChars_isDigit m1) (natChars_isDigit m2)
        (siPart_close_head si1) (siPart_close_head si2) h2
      exact ⟨by rw [natChars_inj h3.1], si_stage h3.2⟩

/-- Serialized cache keys with the same payload determine the engine and
the two pagination parameters. -/
theorem cacheKey_inj {p : ReqParams} {e1 e2 : Engine} {ml1 ml2 si1 si2 : Option Nat}
    (h : cacheKey p e1 ml1 si1 = cacheKey p e2 ml2 si2) :
    e1 = e2 ∧ ml1 = ml2 ∧ si1 = si2 := by
  have hd := congrArg String.data h
  simp only [cacheKey, string_data_append, List.append_assoc] at hd
  have hd1 := List.append_cancel_left (List.append_cancel_left (List.append_cancel_left hd))
  have he : e1 = e2 := engine_of_append hd1
  subst he
  have hd2 := List.append_cancel_left (List.append_cancel_left hd1)
  exact ⟨rfl, mlsi_stage hd2⟩

/-- Looking up a key just erased from the cache misses. -/
theorem cacheGet_erase_self (c : Cache) (key : String) :
    cacheGet (cacheErase c key) key = none := by
  induction c with
  | nil => rfl
  | cons p rest ih =>
    obtain ⟨k, e⟩ := p
    by_cases hk : k = key
    · simpa [cacheErase, List.filter_cons, hk] using ih
    · simpa [cacheErase, List.filter_cons, hk, cacheGet] using ih

/-- Erasing one key leaves lookups of any other key unchanged. -/
theorem cacheGet_erase_ne (c : Cache) {k1 k2 : String} (h : k1 ≠ k2) :
    cacheGet (cacheErase c k1) k2 = cacheGet c k2 := by
  induction c with
  | nil => rfl
  | cons p rest ih =>
    obtain ⟨k, e⟩ := p
    by_cases hk : k = k1
    · subst hk
      simpa [cacheErase, List.filter_cons, cacheGet, h] using ih
    · simp [cacheErase, List.filter_cons, cacheGet, hk] at ih ⊢
      split <;> simp [ih]

/-- Storing under one key leaves lookups of any other key unchanged. -/
theorem cacheGet_put_ne (c : Cache) {k1 k2 : String} (h : k1 ≠ k2) (e : CacheEntry) :
    cacheGet (cachePut c k1 e) k2 = cacheGet c k2 := by
  simp [cachePut, cacheGet, h, cacheGet_erase_ne c h]

/-- C4: cache-key derivation is a deterministic function of the tuple
(request-variant payload, engine, maxLength, startIndex) — logically
identical requests always produce the same key — and, for a fixed
payload, any two requests differing in engine, in maxLength, or in
startIndex (in particular differing only in startIndex) produce
different keys. -/
theorem cacheKey_deterministic_injective :
    (∀ (p1 p2 : ReqParams) (e1 e2 : Engine) (ml1 ml2 si1 si2 : Option Nat),
      p1 = p2 → e1 = e2 → ml1 = ml2 → si1 = si2 →
      cacheKey p1 e1 ml1 si1 = cacheKey p2 e2 ml2 si2) ∧
    (∀ (p : ReqParams) (e1 e2 : Engine) (ml1 ml2 si1 si2 : Option Nat),
      cacheKey p e1 ml1 si1 = cacheKey p e2 ml2 si2 →
      e1 = e2 ∧ ml1 = ml2 ∧ si1 = si2) := by
  constructor
  · intro p1 p2 e1 e2 ml1 ml2 si1 si2 hp he hml hsi
    subst hp; subst he; subst hml; subst hsi; rfl
  · intro p e1 e2 ml1 ml2 si1 si2 h
    exact cacheKey_inj h

/-- Witness for C4 at concrete inputs: identical requests share a key,
and from an assumed key equality the parameters are recovered. -/
theorem cacheKey_deterministic_injective_witness :
    cacheKey (ReqParams.url ("u")) Engine.direct (some 1) none =
      cacheKey (ReqParams.url ("u")) Engine.direct (some 1) none ∧
    (Engine.direct = Engine.direct ∧ (some 1 : Option Nat) = some 1 ∧
      (none : Option Nat) = none) :=
  ⟨cacheKey_deterministic_injective.1 (ReqParams.url ("u")) (ReqParams.url ("u"))
      Engine.direct Engine.direct (some 1) (some 1) none none rfl rfl rfl rfl,
    cacheKey_deterministic_injective.2 (ReqParams.url ("u")) Engine.direct Engine.direct
      (some 1) (some 1) none none rfl⟩

/-- C9: a request omitting `start_index` and the same request passing
`start_index = 0` explicitly derive different cache keys, and likewise
for an omitted versus explicitly supplied `max_length`; distinct keys
occupy separate cache entries (storing under one key does not affect
lookups of the other). -/
theorem omitted_vs_explicit_zero_keys :
    (∀ (p : ReqParams) (e : Engine) (ml : Option Nat),
      cacheKey p e ml none ≠ cacheKey p e ml (some 0)) ∧
    (∀ (p : ReqParams) (e : Engine) (si : Option Nat),
      cacheKey p e none si ≠ cacheKey p e (some 0) si) ∧
    (∀ (k1 k2 : String) (v : CacheEntry) (c : Cache), k1 ≠ k2 →
      cacheGet (cachePut c k1 v) k2 = cacheGet c k2) := by
  refine ⟨?_, ?_, ?_⟩
  · intro p e ml h
    simpa using (cacheKey_inj h).2.2
  · intro p e si h
    simpa using (cacheKey_inj h).2.1
  · intro k1 k2 v c h
    exact cacheGet_put_ne c h v

/-- Witness for C9 at concrete inputs: the omitted/explicit-zero key
pairs differ, and storing under the first key leaves a lookup of the
second unchanged. -/
theorem omitted_vs_explicit_zero_keys_witness :
    cacheKey (ReqParams.url ("u")) Engine.none none none ≠
      cacheKey (ReqParams.url ("u")) Engine.none none (some 0) ∧
    cacheKey (ReqParams.url ("u")) Engine.none none none ≠
      cacheKey (ReqParams.url ("u")) Engine.none (some 0) none ∧
    cacheGet (cachePut [] ("a") (CacheEntry.mk none 0)) ("b") = cacheGet [] ("b") :=
  ⟨omitted_vs_explicit_zero_keys.1 (ReqParams.url ("u")) Engine.none none,
    omitted_vs_explicit_zero_keys.2.1 (ReqParams.url ("u")) Engine.none none,
    omitted_vs_explicit_zero_keys.2.2 ("a") ("b") (CacheEntry.mk none 0) [] (by decide)⟩

/-- C3: with a stored entry under the request's key, a lookup strictly
before the fixed 3-hour TTL elapses returns the stored payload
unchanged, leaves the cache unchanged and performs no upstream call; a
lookup at or after the TTL elapsed behaves exactly as a miss on the
cache with that entry removed (the expired entry is erased as a side
effect) and performs a fresh upstream call. -/
theorem cache_ttl_fresh_or_expired (apiKey : Option String) (p : ReqParams) (e : Engine)
    (ml si : Option Nat) (c : Cache) (now : Nat) (up : FetchOutcome) (entry : CacheEntry)
    (hak : truthyOptStr apiKey = true)
    (hc : cacheGet c (cacheKey p e ml si) = some entry) :
    (now - entry.timestamp < CACHE_TTL →
      callJinaReaderAPI apiKey p e ml si true c now up = (Except.ok entry.data, c, false)) ∧
    (CACHE_TTL ≤ now - entry.timestamp →
      callJinaReaderAPI apiKey p e ml si true c now up =
        callJinaReaderAPI apiKey p e ml si true (cacheErase c (cacheKey p e ml si)) now up ∧
      (callJinaReaderAPI apiKey p e ml si true c now up).2.2 = true) := by
  constructor
  · intro hfresh
    simp [callJinaReaderAPI, hak, hc, hfresh]
  · intro hexp
    have hnot : ¬ (now - entry.timestamp < CACHE_TTL) := by omega
    constructor
    · cases up <;> simp [callJinaReaderAPI, hak, hc, hnot, cacheGet_erase_self]
    · cases up <;> simp [callJinaReaderAPI, hak, hc, hnot]

/-- Witness for C3 at a one-entry cache: a lookup at time 0 is a hit
returning the stored payload with no network call; a lookup exactly at
the TTL behaves as a miss on the erased cache and does call upstream. -/
theorem cache_ttl_fresh_or_expired_witness :
    (callJinaReaderAPI (some ("k")) (ReqParams.url ("u")) Engine.none none none true
        [(cacheKey (ReqParams.url ("u")) Engine.none none none, CacheEntry.mk none 0)] 0
        (FetchOutcome.ok none) =
      (Except.ok (CacheEntry.mk none 0).data,
        [(cacheKey (ReqParams.url ("u")) Engine.none none none, CacheEntry.mk none 0)], false)) ∧
    (callJinaReaderAPI (some ("k")) (ReqParams.url ("u")) Engine.none none none true
        [(cacheKey (ReqParams.url ("u")) Engine.none none none, CacheEntry.mk none 0)] CACHE_TTL
        (FetchOutcome.ok none) =
      callJinaReaderAPI (some ("k")) (ReqParams.url ("u")) Engine.none none none true
        (cacheErase [(cacheKey (ReqParams.url ("u")) Engine.none none none, CacheEntry.mk none 0)]
          (cacheKey (ReqParams.url ("u")) Engine.none none none)) CACHE_TTL
        (FetchOutcome.ok none) ∧
      (callJinaReaderAPI (some ("k")) (ReqParams.url ("u")) Engine.none none none true
        [(cacheKey (ReqParams.url ("u")) Engine.none none none, CacheEntry.mk none 0)] CACHE_TTL
        (FetchOutcome.ok none)).2.2 = true) := by
  have h1 := cache_ttl_fresh_or_expired (some ("k")) (ReqParams.url ("u")) Engine.none none none
    [(cacheKey (ReqParams.url ("u")) Engine.none none none, CacheEntry.mk none 0)] 0
    (FetchOutcome.ok none) (CacheEntry.mk none 0) rfl (by simp [cacheGet])
  have h2 := cache_ttl_fresh_or_expired (some ("k")) (ReqParams.url ("u")) Engine.none none none
    [(cacheKey (ReqParams.url ("u")) Engine.none none none, CacheEntry.mk none 0)] CACHE_TTL
    (FetchOutcome.ok none) (CacheEntry.mk none 0) rfl (by simp [cacheGet])
  exact ⟨h1.1 (by decide), h2.2 (by simp [CACHE_TTL])⟩

/-- C1: whenever the assembled text is strictly longer than the
effective window length (the given positive `maxLength`, or 20000 when
absent), the pre-trailer portion of the formatter's output is exactly
characters `[0, effectiveLength)` of the assembled text — independent of
`startIndex` — while the appended trailer reports the clipped range as
`startIndex` to `startIndex + effectiveLength`, the total assembled
length, and a suggested next `start_index` of
`startIndex + effectiveLength`. -/
theorem truncation_takes_leading_window (result : Option JinaData) (ml : Option Int) (si : Nat)
    (hml : ∀ m, ml = some m → 0 < m)
    (hlen : effectiveMaxLength ml < ((assembledOutput result).length : Int)) :
    formatJinaResponse result ml si =
      substringTo (assembledOutput result) (effectiveMaxLength ml).toNat ++
        clippedTrailer si ((si : Int) + effectiveMaxLength ml) (assembledOutput result).length := by
  simp only [formatJinaResponse]
  rw [if_pos hlen]

/-- Length of the text assembled from `bigData`: the content plus the
two newlines the content branch appends. -/
theorem bigData_assembled_length : (assembledOutput (some bigData)).length = 25000 := by
  have h1 : assembledOutput (some bigData) = ("" ++ bigContent) ++ "\n\n" := rfl
  rw [h1, String.length_append, String.length_append]
  have h2 : bigContent.length = 24998 := by
    show (String.mk (List.replicate 24998 ('a'))).length = 24998
    show (List.replicate 24998 ('a')).length = 24998
    rw [List.length_replicate]
  rw [h2]
  rfl

/-- Witness for C1: assembled text of length 25000 with
`maxLength = 20000` and `startIndex = 0` keeps exactly the first 20000
characters, and the trailer contains `0-20000 of approximately 25000`. -/
theorem truncation_takes_leading_window_witness :
    effectiveMaxLength (some 20000) < ((assembledOutput (some bigData)).length : Int) ∧
    (assembledOutput (some bigData)).length = 25000 ∧
    formatJinaResponse (some bigData) (some 20000) 0 =
      substringTo (assembledOutput (some bigData)) (effectiveMaxLength (some 20000)).toNat ++
        clippedTrailer 0 (((0 : Nat) : Int) + effectiveMaxLength (some 20000))
          (assembledOutput (some bigData)).length ∧
    containsChars ("0-20000 of approximately 25000" : String).data
      (clippedTrailer 0 20000 25000).data = true := by
  refine ⟨by rw [bigData_assembled_length]; decide, bigData_assembled_length, ?_, by decide⟩
  exact truncation_takes_leading_window (some bigData) (some 20000) 0
    (fun m hm => by injection hm with hm; omega)
    (by rw [bigData_assembled_length]; decide)

/-- C8: the formatter is a deterministic pure function of its inputs —
two calls on equal ExtractionResult, `maxLength` and `startIndex`
produce identical output. -/
theorem formatter_deterministic (r1 r2 : Option JinaData) (ml1 ml2 : Option Int)
    (si1 si2 : Nat) (hr : r1 = r2) (hml : ml1 = ml2) (hsi : si1 = si2) :
    formatJinaResponse r1 ml1 si1 = formatJinaResponse r2 ml2 si2 := by
  subst hr; subst hml; subst hsi; rfl

/-- Witness for C8 at a concrete input. -/
theorem formatter_deterministic_witness :
    formatJinaResponse (some smallData) none 0 = formatJinaResponse (some smallData) none 0 :=
  formatter_deterministic (some smallData) (some smallData) none none 0 0 rfl rfl rfl

/-- Counterexample to C2 as stated: with no data payload and
`startIndex = 5`, the formatter appends the presumed-end pagination
trailer to the no-content literal rather than returning the literal
alone, so the pagination step is not short-circuited. -/
theorem noContent_not_shortCircuited_cex :
    formatJinaResponse none none 5 ≠
      "No content extracted or unexpected response format." := by decide

/-- C2 amended: with no data payload the formatter produces exactly the
fixed no-content literal only when `startIndex = 0` and the effective
window length is at least the literal's 51 characters (as for any
absent or zero `maxLength`); pagination is not short-circuited, and with
`startIndex > 0` the presumed-end trailer is appended to the literal. -/
theorem noContent_literal_and_trailer (ml : Option Int) (si : Nat)
    (hml : (51 : Int) ≤ effectiveMaxLength ml) :
    (si = 0 → formatJinaResponse none ml si =
      "No content extracted or unexpected response format.") ∧
    (0 < si → formatJinaResponse none ml si =
      "No content extracted or unexpected response format." ++ endTrailer si (si + 51)) := by
  have hlen : (assembledOutput none).length = 51 := rfl
  have hc : ¬ (((assembledOutput none).length : Int) > effectiveMaxLength ml) := by
    rw [hlen]; push_cast; omega
  constructor
  · intro h0
    subst h0
    simp only [formatJinaResponse]
    rw [if_neg hc, if_neg (by decide : ¬ ((0 : Nat) > 0))]
    rfl
  · intro hsi
    simp only [formatJinaResponse]
    rw [if_neg hc, if_pos hsi, hlen]
    rfl

/-- Witness for C2 amended: `startIndex = 0` yields the bare literal,
`startIndex = 5` yields the literal followed by the trailer. -/
theorem noContent_literal_and_trailer_witness :
    ((51 : Int) ≤ effectiveMaxLength none) ∧
    formatJinaResponse none none 0 =
      "No content extracted or unexpected response format." ∧
    formatJinaResponse none none 5 =
      "No content extracted or unexpected response format." ++ endTrailer 5 (5 + 51) := by
  refine ⟨by decide, ?_, ?_⟩
  · exact (noContent_literal_and_trailer none 0 (by decide)).1 rfl
  · exact (noContent_literal_and_trailer none 5 (by decide)).2 (by decide)

/-- Counterexample to C5 as stated: a negative `maxLength` is not
treated as absent — with `maxLength = -1` the formatter's output on a
small payload differs from the output with `maxLength` absent. -/
theorem negative_maxLength_not_default_cex :
    formatJinaResponse (some smallData) (some (-1)) 0 ≠
      formatJinaResponse (some smallData) none 0 := by decide

/-- C5 amended: a `maxLength` of 0 (like an absent one) falls back to
the default window of 20000 characters, but a negative `maxLength` is
kept as the effective window length itself — the source's falsy-style
fallback only catches zero. -/
theorem maxLength_zero_falls_back (r : Option JinaData) (si : Nat) :
    (formatJinaResponse r (some 0) si = formatJinaResponse r none si) ∧
    (∀ m : Int, m < 0 → effectiveMaxLength (some m) = m) := by
  constructor
  · rfl
  · intro m hm
    simp only [effectiveMaxLength]
    rw [if_neg (by simp; omega : ¬ ((m == 0) = true))]

/-- Witness for C5 amended at concrete inputs. -/
theorem maxLength_zero_falls_back_witness :
    (formatJinaResponse (some smallData) (some 0) 3 = formatJinaResponse (some smallData) none 3) ∧
    ((-1 : Int) < 0 ∧ effectiveMaxLength (some (-1)) = -1) :=
  ⟨(maxLength_zero_falls_back (some smallData) 3).1,
    by decide, (maxLength_zero_falls_back (some smallData) 3).2 (-1) (by decide)⟩

/-- C10: a present data payload whose title, description, content,
links, warning and usage fields are all absent or empty assembles to the
empty string, so with `startIndex = 0` the formatter returns the empty
string — not the no-content literal, which arises only from an absent
payload — and with `startIndex > 0` it returns solely the presumed-end
pagination trailer. -/
theorem empty_fields_payload (d : JinaData) (ml : Option Int) (si : Nat)
    (hml : ∀ m, ml = some m → 0 < m)
    (ht : truthyOptStr d.title = false)
    (hdsc : (truthyOptStr d.description && truthyStr (orEmpty d.description).trim) = false)
    (hcn : truthyOptStr d.content = false)
    (hlk : d.links.getD [] = [])
    (hwr : truthyOptStr d.warning = false)
    (hus : ∀ u, d.usage = some u → u.tokens = 0) :
    (si = 0 → formatJinaResponse (some d) ml si = "") ∧
    (0 < si → formatJinaResponse (some d) ml si = endTrailer si si) := by
  have hout : assembledOutput (some d) = "" := by
    show assembleData d = ""
    unfold assembleData
    cases hl2 : d.links with
    | none =>
      cases hu2 : d.usage with
      | none => simp [ht, hdsc, hcn, hwr]
      | some u =>
        have h0 : u.tokens = 0 := hus u hu2
        simp [ht, hdsc, hcn, hwr, h0]
    | some l =>
      have h0 : l = [] := by rw [hl2] at hlk; simpa using hlk
      subst h0
      cases hu2 : d.usage with
      | none => simp [ht, hdsc, hcn, hwr]
      | some u =>
        have h0 : u.tokens = 0 := hus u hu2
        simp [ht, hdsc, hcn, hwr, h0]
  have heff : 0 ≤ effectiveMaxLength ml := by
    cases ml with
    | none => decide
    | some m =>
      have hm := hml m rfl
      simp only [effectiveMaxLength]
      by_cases hm0 : (m == 0) = true
      · rw [if_pos hm0]; decide
      · rw [if_neg hm0]; omega
  have hcond : ¬ ((("" : String).length : Int) > effectiveMaxLength ml) := by
    have h0 : (("" : String).length : Int) = 0 := rfl
    rw [h0]; omega
  constructor
  · intro h0
    subst h0
    simp only [formatJinaResponse, hout]
    rw [if_neg hcond, if_neg (by decide : ¬ ((0 : Nat) > 0))]
  · intro hsi
    simp only [formatJinaResponse, hout]
    rw [if_neg hcond, if_pos hsi]
    rfl

/-- Witness for C10 on the all-absent payload: empty output at
`startIndex = 0`, trailer-only output at `startIndex = 1`. -/
theorem empty_fields_payload_witness :
    formatJinaResponse (some emptyData) none 0 = "" ∧
    formatJinaResponse (some emptyData) none 1 = endTrailer 1 1 := by
  have h0 := empty_fields_payload emptyData none 0 (fun m hm => by cases hm)
    rfl rfl rfl rfl rfl (fun u hu => by cases hu)
  have h1 := empty_fields_payload emptyData none 1 (fun m hm => by cases hm)
    rfl rfl rfl rfl rfl (fun u hu => by cases hu)
  exact ⟨h0.1 rfl, h1.2 (by decide)⟩

/-- C6: invoking any of the three tool handlers with no (or an empty)
configured credential yields the configuration-error text naming the
missing `JINA_API_KEY`, and no outbound network call is attempted. -/
theorem missing_credential_no_call (apiKey : Option String) (v : String) (e : Engine)
    (ml si : Option Nat) (c : Cache) (now : Nat) (up : FetchOutcome)
    (hak : truthyOptStr apiKey = false) :
    ((jina_read_url v apiKey e ml si c now up).1.text =
        "Error: JINA_API_KEY not configured. Please set it in your .env file." ∧
      (jina_read_url v apiKey e ml si c now up).2.2 = false) ∧
    ((jina_read_html v apiKey e ml si c now up).1.text =
        "Error: JINA_API_KEY not configured. Please set it in your .env file." ∧
      (jina_read_html v apiKey e ml si c now up).2.2 = false) ∧
    ((jina_read_pdf v apiKey e ml si c now up).1.text =
        "Error: JINA_API_KEY not configured. Please set it in your .env file." ∧
      (jina_read_pdf v apiKey e ml si c now up).2.2 = false) := by
  refine ⟨⟨?_, ?_⟩, ⟨?_, ?_⟩, ⟨?_, ?_⟩⟩ <;>
    simp [jina_read_url, jina_read_html, jina_read_pdf, handleJina,
      callJinaReaderAPI, errMessage, hak] <;> rfl

/-- Witness for C6 with an absent credential. -/
theorem missing_credential_no_call_witness :
    truthyOptStr none = false ∧
    (jina_read_url ("u") none Engine.none none none [] 0 (FetchOutcome.ok none)).1.text =
      "Error: JINA_API_KEY not configured. Please set it in your .env file." ∧
    (jina_read_url ("u") none Engine.none none none [] 0 (FetchOutcome.ok none)).2.2 = false := by
  have h := missing_credential_no_call none ("u") Engine.none none none [] 0
    (FetchOutcome.ok none) rfl
  exact ⟨rfl, h.1.1, h.1.2⟩

/-- C7: whatever failure the upstream client raises, each of the three
tool handlers catches it and returns a protocol envelope whose text is
the failure's message prefixed with `Error: ` — handlers, being total
functions to envelopes here, never propagate a failure past their own
boundary. -/
theorem handler_wraps_failures (apiKey : Option String) (v : String) (e : Engine)
    (ml si : Option Nat) (c : Cache) (now : Nat) (up : FetchOutcome) (err : CallError) :
    ((callJinaReaderAPI apiKey (ReqParams.url v) e ml si true c now up).1 = Except.error err →
      (jina_read_url v apiKey e ml si c now up).1.text = "Error: " ++ errMessage err) ∧
    ((callJinaReaderAPI apiKey (ReqParams.html v) e ml si true c now up).1 = Except.error err →
      (jina_read_html v apiKey e ml si c now up).1.text = "Error: " ++ errMessage err) ∧
    ((callJinaReaderAPI apiKey (ReqParams.pdf v) e ml si true c now up).1 = Except.error err →
      (jina_read_pdf v apiKey e ml si c now up).1.text = "Error: " ++ errMessage err) := by
  refine ⟨?_, ?_, ?_⟩ <;> intro h <;>
    simp [jina_read_url, jina_read_html, jina_read_pdf, handleJina, h]

/-- Witness for C7: an HTTP 500 failure from upstream is wrapped into
the `Error: `-prefixed envelope text by the URL handler. -/
theorem handler_wraps_failures_witness :
    (callJinaReaderAPI (some ("k")) (ReqParams.url ("u")) Engine.none none none true [] 0
        (FetchOutcome.httpError 500)).1 = Except.error (CallError.httpError 500) ∧
    (jina_read_url ("u") (some ("k")) Engine.none none none [] 0
        (FetchOutcome.httpError 500)).1.text = "Error: " ++ errMessage (CallError.httpError 500) := by
  have h := (handler_wraps_failures (some ("k")) ("u") Engine.none none none [] 0
    (FetchOutcome.httpError 500) (CallError.httpError 500)).1
  exact ⟨rfl, h rfl⟩
